import Mathlib

/-!
# Shallow embedding of the `glob-dev-exp-devops-project` data-access layer

This file embeds the core of the repository — the record model
(`db/db_utils.py`), the mini-ORM (`db/db_connector.py`, class `ORM`), the
data-access facade (`add_user_data`, `get_user_from_database`,
`update_user_data`, `delete_user_data`), the table-provisioning function
(`create_table`) and the validating HTTP handlers of
`server/rest_app.py` — and proves the behavioural properties stated in the
specification against that embedding.

Conventions of the embedding:
* JSON / SQL scalar values are `JsonValue` (integers or strings).
* The `users` table is a list of raw rows, each row a positional list of
  column values in the table's column order
  `[user_id, user_name, creation_date]`.
* Each facade operation returns its HTTP-level outcome, the table state
  after the call, and the trace of storage operations it issued, so that
  "no storage mutation was issued" is a statement about the trace.
* Python exceptions that the code raises (as opposed to error responses it
  returns) are modelled with explicit `fatal` / `raised` constructors.
-/

/-- A JSON (or SQL scalar) value: the payloads and table cells of this
repository only ever hold integers and strings. -/
inductive JsonValue where
  | jint (i : Int)
  | jstr (s : String)
  deriving DecidableEq, Repr

/-- A parsed JSON object body (Python `dict[str, Any]`), as an association
list from field name to value. -/
abbrev Payload := List (String × JsonValue)

/-- First value bound to key `k` in an association list, mirroring Python
`dict` lookup. -/
def lookupField {α : Type} (p : List (String × α)) (k : String) : Option α :=
  match p with
  | [] => none
  | (k', v) :: rest => if k' = k then some v else lookupField rest k

/-- Model `UsersDataModel` of `db/db_utils.py`: pydantic model with fields
`user_id : int`, `user_name : str (max_length 50)`,
`creation_date : str (max_length 50)`. -/
structure UsersDataModel where
  user_id : Int
  user_name : String
  creation_date : String
  deriving DecidableEq, Repr

/-- Pydantic lax coercion to `int`: accepts an integer, or a string that
parses as an integer. -/
def coerceInt : JsonValue → Option Int
  | .jint i => some i
  | .jstr s => s.toInt?

/-- Pydantic coercion to `str`: accepts only strings (pydantic does not
coerce numbers to strings in lax mode). -/
def coerceStr : JsonValue → Option String
  | .jint _ => none
  | .jstr s => some s

/-- Validation `UsersDataModel.model_validate` on a parsed JSON object: requires
`user_id` (integer-coercible), `user_name` and `creation_date` (strings of
length at most 50). Returns the validated model or a `ValidationError`
detail string. -/
def model_validate (p : Payload) : Except String UsersDataModel :=
  match lookupField p "user_id" with
  | none => .error "user_id: Field required"
  | some v =>
    match coerceInt v with
    | none => .error "user_id: Input should be a valid integer"
    | some uid =>
      match lookupField p "user_name" with
      | none => .error "user_name: Field required"
      | some v' =>
        match coerceStr v' with
        | none => .error "user_name: Input should be a valid string"
        | some name =>
          if name.length ≤ 50 then
            match lookupField p "creation_date" with
            | none => .error "creation_date: Field required"
            | some v'' =>
              match coerceStr v'' with
              | none => .error "creation_date: Input should be a valid string"
              | some date =>
                if date.length ≤ 50 then
                  .ok { user_id := uid, user_name := name, creation_date := date }
                else .error "creation_date: String should have at most 50 characters"
          else .error "user_name: String should have at most 50 characters"

/-- Dump `model_dump` of a validated `UsersDataModel`, as the ordered field
dictionary `{user_id, user_name, creation_date}` (Python dicts preserve
declaration order). -/
def model_dump (m : UsersDataModel) : Payload :=
  [("user_id", .jint m.user_id),
   ("user_name", .jstr m.user_name),
   ("creation_date", .jstr m.creation_date)]

/-! ## The `users` table -/

/-- A raw fetched row: a positional list of column values in the table's
column order. -/
abbrev Row := List JsonValue

/-- The stored `users` table: a list of raw rows. -/
abbrev Table := List Row

/-- Column order of the `users` table (`SHOW COLUMNS FROM users`):
`user_id`, `user_name`, `creation_date`. -/
def usersColumns : List String := ["user_id", "user_name", "creation_date"]

/-- The stored row corresponding to a validated model, in table column
order (as inserted by `ORM.insert(**model_dump())`). -/
def rowOfModel (m : UsersDataModel) : Row :=
  [.jint m.user_id, .jstr m.user_name, .jstr m.creation_date]

/-- Does a stored row satisfy the SQL predicate `user_id = uid`?  The
`user_id` column is the first column and has integer type. -/
def rowMatches (uid : Int) (row : Row) : Bool :=
  match row with
  | .jint i :: _ => i == uid
  | _ => false

/-- Index of a column name in the `users` table column order. -/
def colIndex (c : String) : Nat := usersColumns.indexOf c

/-- SQL column projection of a raw row onto the named columns. -/
def projectRow (cols : List String) (row : Row) : Row :=
  cols.map (fun c => row.getD (colIndex c) (.jstr ""))

/-- Semantics of `ORM.select` on the `users` table with the predicate
`user_id = uid` that every facade call uses: filter the matching rows,
then project onto the requested columns (all columns when `none`). -/
def usersSelect (tbl : Table) (cols : Option (List String)) (uid : Int) : List Row :=
  let matched := tbl.filter (rowMatches uid)
  match cols with
  | none => matched
  | some cs => matched.map (projectRow cs)

/-- Semantics of `ORM.insert(**model_dump())` on the `users` table:
append the model's row. -/
def usersInsert (tbl : Table) (m : UsersDataModel) : Table :=
  tbl ++ [rowOfModel m]

/-- Semantics of `ORM.update(where = "user_id = uid", **model_dump())`:
every matching row has all three columns set from the payload (note that
this sets `user_id` itself to the payload's `user_id`). -/
def usersUpdate (tbl : Table) (uid : Int) (m : UsersDataModel) : Table :=
  tbl.map (fun r => if rowMatches uid r then rowOfModel m else r)

/-- Semantics of `ORM.delete(where = "user_id = uid")`: drop the matching
rows. -/
def usersDelete (tbl : Table) (uid : Int) : Table :=
  tbl.filter (fun r => !(rowMatches uid r))

/-! ## Outcomes and storage traces -/

/-- A storage operation issued by a facade call. -/
inductive StorageOp where
  | selectOp (cols : Option (List String)) (uid : Int)
  | insertOp (row : Row)
  | updateOp (uid : Int) (m : UsersDataModel)
  | deleteOp (uid : Int)
  | showColumnsOp
  deriving DecidableEq, Repr

/-- Is the storage operation a mutation (insert / update / delete)? -/
def StorageOp.isMutation : StorageOp → Bool
  | .selectOp _ _ => false
  | .insertOp _ => true
  | .updateOp _ _ => true
  | .deleteOp _ => true
  | .showColumnsOp => false

/-- HTTP-level outcome of a facade call: a JSON success body with a status
code, an error response (`abort(code, reason)` / returned error JSON), or
a raised Python exception (`fatal`). -/
inductive Outcome where
  | ok (fields : Payload) (code : Nat)
  | err (code : Nat) (reason : String)
  | fatal (msg : String)
  deriving DecidableEq, Repr

/-- Reason `DBFailureReasonsEnum.ID_ALREADY_EXISTS`. -/
def ID_ALREADY_EXISTS : String := "id already exists"

/-- Reason `DBFailureReasonsEnum.NO_SUCH_ID`. -/
def NO_SUCH_ID : String := "no such id"

/-! ## The data-access facade (`db/db_connector.py`) -/

/-- Facade `add_user_data`: check whether a row with the URL's `user_id` exists
(`select` of column `user_id`); if so, `abort(500, ID_ALREADY_EXISTS)`;
otherwise insert `new_user_data.model_dump()` and answer
`{"status": "ok", "user_added": new_user_data.user_id}` with 200. -/
def add_user_data (tbl : Table) (user_id : Int) (new_user_data : UsersDataModel) :
    Outcome × Table × List StorageOp :=
  match usersSelect tbl (some ["user_id"]) user_id with
  | _ :: _ =>
      (.err 500 ID_ALREADY_EXISTS, tbl, [.selectOp (some ["user_id"]) user_id])
  | [] =>
      (.ok [("status", .jstr "ok"), ("user_added", .jint new_user_data.user_id)] 200,
       usersInsert tbl new_user_data,
       [.selectOp (some ["user_id"]) user_id, .insertOp (rowOfModel new_user_data)])

/-- Facade `get_user_from_database`: runs `select *` where `user_id = user_id`; empty →
`abort(500, NO_SUCH_ID)`; more than one row → `raise ValueError(...)`;
otherwise zip the single row with the table columns and validate it as a
`UsersDataModel` — `abort(422, ...)` on `ValidationError`, else answer
`{"status": "ok", **model_dump()}` with 200. -/
def get_user_from_database (tbl : Table) (user_id : Int) :
    Outcome × Table × List StorageOp :=
  match usersSelect tbl none user_id with
  | [] => (.err 500 NO_SUCH_ID, tbl, [.selectOp none user_id])
  | [row] =>
      (match model_validate (usersColumns.zip row) with
       | .error e => (.err 422 e, tbl, [.selectOp none user_id, .showColumnsOp])
       | .ok m =>
          (.ok (("status", .jstr "ok") :: model_dump m) 200, tbl,
           [.selectOp none user_id, .showColumnsOp]))
  | _ :: _ :: _ =>
      (.fatal ("More than one user with the same id: " ++ toString user_id), tbl,
       [.selectOp none user_id])

/-- Facade `update_user_data`: runs `select user_name` where `user_id = user_id`;
empty → `abort(500, NO_SUCH_ID)`; else `update` all three columns from
`validated_data.model_dump()` and answer
`{"status": "ok", "user_updated": validated_data.user_id}` with 200. -/
def update_user_data (tbl : Table) (user_id : Int) (validated_data : UsersDataModel) :
    Outcome × Table × List StorageOp :=
  match usersSelect tbl (some ["user_name"]) user_id with
  | [] => (.err 500 NO_SUCH_ID, tbl, [.selectOp (some ["user_name"]) user_id])
  | _ :: _ =>
      (.ok [("status", .jstr "ok"), ("user_updated", .jint validated_data.user_id)] 200,
       usersUpdate tbl user_id validated_data,
       [.selectOp (some ["user_name"]) user_id, .updateOp user_id validated_data])

/-- Facade `delete_user_data`: runs `select user_name` where `user_id = user_id`;
empty → `abort(500, NO_SUCH_ID)`; else `delete` the matching rows and
answer `{"status": "ok", "user_deleted": user_id}` with 200. -/
def delete_user_data (tbl : Table) (user_id : Int) :
    Outcome × Table × List StorageOp :=
  match usersSelect tbl (some ["user_name"]) user_id with
  | [] => (.err 500 NO_SUCH_ID, tbl, [.selectOp (some ["user_name"]) user_id])
  | _ :: _ =>
      (.ok [("status", .jstr "ok"), ("user_deleted", .jint user_id)] 200,
       usersDelete tbl user_id,
       [.selectOp (some ["user_name"]) user_id, .deleteOp user_id])

/-! ## The validating HTTP handlers (`server/rest_app.py`) -/

/-- Handler `server/rest_app.py::add_user`: validate the request body with
`UsersDataModel.model_validate`; on `ValidationError`, `abort(422, str(e))`
without touching storage; else delegate to `add_user_data`. -/
def server_add_user (tbl : Table) (user_id : Int) (request_data : Payload) :
    Outcome × Table × List StorageOp :=
  match model_validate request_data with
  | .error e => (.err 422 e, tbl, [])
  | .ok new_user_data => add_user_data tbl user_id new_user_data

/-- Handler `server/rest_app.py::update_user`: validate the request body; on
`ValidationError`, `abort(422, str(e))` without touching storage; else
delegate to `update_user_data`. -/
def server_update_user (tbl : Table) (user_id : Int) (request_data : Payload) :
    Outcome × Table × List StorageOp :=
  match model_validate request_data with
  | .error e => (.err 422 e, tbl, [])
  | .ok validated_data => update_user_data tbl user_id validated_data

/-! ## The query builder at the SQL-text level (`ORM.select`) -/

/-- The column part of the `SELECT` text: backtick-quoted column names
joined by `", "`, or `*` when no column list is given. -/
def selectColumnsText (columns : Option (List String)) : String :=
  match columns with
  | some cols => String.intercalate ", " (cols.map (fun c => "`" ++ c ++ "`"))
  | none => "*"

/-- The statement text emitted by `ORM.select(table_name, columns, where)`:
`SELECT {columns} FROM {table}`, extended with ` WHERE {where}` exactly
when the `where` argument is a non-empty string (Python string
truthiness). -/
def selectQueryText (table_name : String) (columns : Option (List String))
    (w : String) : String :=
  let query := "SELECT " ++ selectColumnsText columns ++ " FROM `" ++ table_name ++ "`"
  if w = "" then query else query ++ (" WHERE " ++ w)

/-- The injected execution handle of the query builder, reduced to the one
capability `ORM.select` uses after `execute`: what `fetchall` returns once
a given statement has been executed. -/
structure DBCursor where
  results : String → List Row

/-- Method `ORM.select`: build the statement text, execute it on the cursor, and
return `fetchall()`'s row sequence unchanged, paired with the executed
statement. -/
def ORM.select (cur : DBCursor) (table_name : String)
    (columns : Option (List String)) (w : String) : String × List Row :=
  let query := selectQueryText table_name columns w
  (query, cur.results query)

/-! ## Table provisioning (`create_table` and `ORM.create_table`) -/

/-- Is a schema dictionary value a string? (`isinstance(v, str)`). -/
def isStrVal : JsonValue → Bool
  | .jstr _ => true
  | .jint _ => false

/-- The string held by a schema value (defaulting for the impossible
non-string case). -/
def strVal : JsonValue → String
  | .jstr s => s
  | .jint _ => ""

/-- Method `ORM.create_table(schema_name, table_name, table_schema)`: raise a
`ValueError` unless every schema value is a string, raise a `KeyError`
unless the schema designates a `primary_key`, else emit the
`CREATE TABLE` statement text. -/
def ORM.create_table (schema_name table_name : String)
    (table_schema : List (String × JsonValue)) : Except String String :=
  if ¬ (table_schema.all (fun kv => isStrVal kv.2)) then
    .error "All schema value should be a string"
  else
    match lookupField table_schema "primary_key" with
    | none => .error "Schema should contain a primary_key"
    | some pk =>
      let primary_key := "PRIMARY KEY (`" ++ strVal pk ++ "`)"
      let schema := String.intercalate ", "
        (((table_schema.filter (fun kv => kv.1 ≠ "primary_key")).map
          (fun kv => "`" ++ kv.1 ++ "` " ++ strVal kv.2)))
      .ok ("CREATE TABLE `" ++ schema_name ++ "`.`" ++ table_name ++ "`("
        ++ schema ++ ", " ++ primary_key ++ ");")

/-- Result of the introspection attempt `get_table_columns_info()`
(`SHOW COLUMNS FROM table`): it either yields the column-info rows, raises
`pymysql.err.ProgrammingError` (which is what a `SHOW COLUMNS` on a table
that does not exist raises), or raises some other exception. -/
inductive IntrospectResult where
  | ok (info : List Row)
  | programmingError (msg : String)
  | otherError (msg : String)
  deriving DecidableEq, Repr

/-- Result of the provisioning call: returned normally (with the
`CREATE TABLE` statement it executed, when it created the table), or
raised an exception. -/
inductive ProvisionResult where
  | done (executedCreate : Option String)
  | raised (msg : String)
  deriving DecidableEq, Repr

/-- Function `db/db_connector.py::create_table`: raise a `ValueError` if
`table_name` has no entry in `table_schemas`; otherwise try
`get_table_columns_info()` — on success do nothing more, on
`pymysql.err.ProgrammingError` create the table via `ORM.create_table`,
and let any other exception propagate. -/
def create_table (introspection : IntrospectResult) (table_name schema_name : String)
    (table_schemas : List (String × List (String × JsonValue))) : ProvisionResult :=
  match lookupField table_schemas table_name with
  | none => .raised ("Table schema for " ++ table_name ++ " not found")
  | some table_schema =>
    match introspection with
    | .ok _ => .done none
    | .programmingError _ =>
        match ORM.create_table schema_name table_name table_schema with
        | .ok stmt => .done (some stmt)
        | .error e => .raised e
    | .otherError m => .raised m

/-! ## Helper lemmas -/

/-- A table with no row for `uid` has an empty `user_id = uid` filter. -/
lemma filter_eq_nil_of_absent {tbl : Table} {uid : Int}
    (h : ∀ r ∈ tbl, rowMatches uid r = false) :
    tbl.filter (rowMatches uid) = [] := by
  rw [List.filter_eq_nil_iff]
  intro a ha
  simp [h a ha]

/-- The row built from a model whose `user_id` is `uid` satisfies the
predicate `user_id = uid`. -/
lemma rowMatches_rowOfModel {uid : Int} {m : UsersDataModel} (hid : m.user_id = uid) :
    rowMatches uid (rowOfModel m) = true := by
  simp [rowMatches, rowOfModel, hid]

/-- Validating the zipped dictionary of a model's own stored row gives the
model back, provided the model's strings respect the length bounds. -/
lemma model_validate_rowOfModel (m : UsersDataModel)
    (hname : m.user_name.length ≤ 50) (hdate : m.creation_date.length ≤ 50) :
    model_validate (usersColumns.zip (rowOfModel m)) = .ok m := by
  simp [usersColumns, rowOfModel, model_validate, lookupField, coerceInt, coerceStr,
    hname, hdate]

/-- After inserting `m` into a table with no row for `uid`, the rows
matching `uid = m.user_id` are exactly the inserted row. -/
lemma filter_usersInsert {tbl : Table} {uid : Int} {m : UsersDataModel}
    (habs : tbl.filter (rowMatches uid) = []) (hid : m.user_id = uid) :
    (usersInsert tbl m).filter (rowMatches uid) = [rowOfModel m] := by
  simp [usersInsert, List.filter_append, habs, rowMatches_rowOfModel hid]

/-- Calling `get_user_from_database` on a table whose `uid`-matching rows are
exactly the stored row of a length-valid model answers the model's full
dump. -/
lemma get_user_of_filter_single {tbl : Table} {uid : Int} {m : UsersDataModel}
    (hfil : tbl.filter (rowMatches uid) = [rowOfModel m])
    (hname : m.user_name.length ≤ 50) (hdate : m.creation_date.length ≤ 50) :
    get_user_from_database tbl uid
      = (.ok (("status", .jstr "ok") :: model_dump m) 200, tbl,
         [.selectOp none uid, .showColumnsOp]) := by
  simp [get_user_from_database, usersSelect, hfil,
    model_validate_rowOfModel m hname hdate]

/-- Updating with a model whose `user_id` is `uid` turns every
`uid`-matching row into the model's row and touches nothing else. -/
lemma filter_usersUpdate (tbl : Table) {uid : Int} {m : UsersDataModel}
    (hid : m.user_id = uid) :
    (usersUpdate tbl uid m).filter (rowMatches uid)
      = List.replicate (tbl.filter (rowMatches uid)).length (rowOfModel m) := by
  induction tbl with
  | nil => rfl
  | cons r t ih =>
    cases h : rowMatches uid r with
    | false =>
        simp [usersUpdate, List.filter_cons, h] at ih ⊢
        exact ih
    | true =>
        simp [usersUpdate, List.filter_cons, h, rowMatches_rowOfModel hid,
          List.replicate_succ] at ih ⊢
        exact ih

/-! ## C2: absent id is rejected with `NoSuchId` and without mutation -/

/-- C2: on an id with no matching row, `get_user_from_database`,
`update_user_data` and `delete_user_data` each answer
`abort(500, "no such id")`, leave the table unchanged, and issue only the
existence-check `SELECT` — no insert, update or delete statement. -/
theorem absent_id_no_mutation (tbl : Table) (uid : Int) (m : UsersDataModel)
    (h : ∀ r ∈ tbl, rowMatches uid r = false) :
    get_user_from_database tbl uid
        = (.err 500 NO_SUCH_ID, tbl, [.selectOp none uid])
    ∧ update_user_data tbl uid m
        = (.err 500 NO_SUCH_ID, tbl, [.selectOp (some ["user_name"]) uid])
    ∧ delete_user_data tbl uid
        = (.err 500 NO_SUCH_ID, tbl, [.selectOp (some ["user_name"]) uid])
    ∧ [StorageOp.selectOp none uid, StorageOp.selectOp (some ["user_name"]) uid].all
        (fun op => op.isMutation = false) := by
  have hfil := filter_eq_nil_of_absent h
  refine ⟨?_, ?_, ?_, ?_⟩
  · simp [get_user_from_database, usersSelect, hfil]
  · simp [update_user_data, usersSelect, hfil]
  · simp [delete_user_data, usersSelect, hfil]
  · simp [StorageOp.isMutation]

/-- Witness for C2 at a concrete table and id. -/
theorem absent_id_no_mutation_witness :
    get_user_from_database [[JsonValue.jint 1, JsonValue.jstr "john", JsonValue.jstr "d"]] 2
      = (.err 500 NO_SUCH_ID,
         [[JsonValue.jint 1, JsonValue.jstr "john", JsonValue.jstr "d"]],
         [.selectOp none 2]) :=
  (absent_id_no_mutation [[JsonValue.jint 1, JsonValue.jstr "john", JsonValue.jstr "d"]] 2
    ⟨1, "john", "d"⟩ (by decide)).1

/-! ## C3: adding an existing id is rejected and mutates nothing -/

/-- C3: when some row already matches `uid`, `add_user_data` answers
`abort(500, "id already exists")`, performs no insert, and leaves the
table — in particular the existing row — unmodified. -/
theorem add_existing_id_rejected (tbl : Table) (uid : Int) (m : UsersDataModel)
    (r : Row) (hr : r ∈ tbl) (hm : rowMatches uid r = true) :
    add_user_data tbl uid m
      = (.err 500 ID_ALREADY_EXISTS, tbl, [.selectOp (some ["user_id"]) uid]) := by
  have hne : tbl.filter (rowMatches uid) ≠ [] := by
    intro hnil
    have hmem := List.mem_filter.mpr ⟨hr, hm⟩
    rw [hnil] at hmem
    exact absurd hmem (List.not_mem_nil _)
  obtain ⟨a, l, hl⟩ := List.exists_cons_of_ne_nil hne
  simp [add_user_data, usersSelect, hl]

/-- Witness for C3 at a concrete table, id and payload. -/
theorem add_existing_id_rejected_witness :
    add_user_data [[JsonValue.jint 1, JsonValue.jstr "john", JsonValue.jstr "d"]] 1
        ⟨1, "mary", "d2"⟩
      = (.err 500 ID_ALREADY_EXISTS,
         [[JsonValue.jint 1, JsonValue.jstr "john", JsonValue.jstr "d"]],
         [.selectOp (some ["user_id"]) 1]) :=
  add_existing_id_rejected [[JsonValue.jint 1, JsonValue.jstr "john", JsonValue.jstr "d"]] 1
    ⟨1, "mary", "d2"⟩ [JsonValue.jint 1, JsonValue.jstr "john", JsonValue.jstr "d"]
    (by decide) (by decide)

/-! ## C1: add followed by get -/

/-- Counterexample to C1 as stated: the payload carries its own `user_id`
(validation requires it), and `add_user_data` checks existence of the URL
id but inserts the payload's id. With the valid payload
`{user_id: 7, user_name: "john", creation_date: "2021-01-01 00:00:00"}`
and the unused URL id `3` on an empty table, `add_user_data` succeeds, yet
the subsequent `get_user_from_database` on id `3` answers
`abort(500, "no such id")` instead of a success outcome. -/
theorem add_get_roundtrip_cex :
    (add_user_data [] 3 ⟨7, "john", "2021-01-01 00:00:00"⟩).1
        = .ok [("status", .jstr "ok"), ("user_added", .jint 7)] 200
    ∧ (get_user_from_database (add_user_data [] 3 ⟨7, "john", "2021-01-01 00:00:00"⟩).2.1 3).1
        = .err 500 NO_SUCH_ID := by
  constructor <;> rfl

/-- C1 (amended): when additionally the valid payload's `user_id` equals
the id being added, `add_user_data` succeeds and a subsequent
`get_user_from_database` on that id returns a success outcome carrying
the submitted `user_name` and `creation_date`. -/
theorem add_then_get_roundtrip (tbl : Table) (uid : Int) (m : UsersDataModel)
    (habs : ∀ r ∈ tbl, rowMatches uid r = false)
    (hid : m.user_id = uid)
    (hname : m.user_name.length ≤ 50) (hdate : m.creation_date.length ≤ 50) :
    add_user_data tbl uid m
        = (.ok [("status", .jstr "ok"), ("user_added", .jint m.user_id)] 200,
           usersInsert tbl m,
           [.selectOp (some ["user_id"]) uid, .insertOp (rowOfModel m)])
    ∧ get_user_from_database (usersInsert tbl m) uid
        = (.ok [("status", .jstr "ok"), ("user_id", .jint m.user_id),
                ("user_name", .jstr m.user_name),
                ("creation_date", .jstr m.creation_date)] 200,
           usersInsert tbl m, [.selectOp none uid, .showColumnsOp]) := by
  have hfil := filter_eq_nil_of_absent habs
  constructor
  · simp [add_user_data, usersSelect, hfil]
  · exact get_user_of_filter_single (filter_usersInsert hfil hid) hname hdate

/-- Witness for C1 (amended) at a concrete table, id and payload. -/
theorem add_then_get_roundtrip_witness :
    add_user_data [[JsonValue.jint 2, JsonValue.jstr "mary", JsonValue.jstr "d0"]] 1
        ⟨1, "john", "2021-01-01 00:00:00"⟩
      = (.ok [("status", .jstr "ok"), ("user_added", .jint 1)] 200,
         [[JsonValue.jint 2, JsonValue.jstr "mary", JsonValue.jstr "d0"],
          [JsonValue.jint 1, JsonValue.jstr "john", JsonValue.jstr "2021-01-01 00:00:00"]],
         [.selectOp (some ["user_id"]) 1,
          .insertOp [JsonValue.jint 1, JsonValue.jstr "john",
            JsonValue.jstr "2021-01-01 00:00:00"]])
    ∧ get_user_from_database
        [[JsonValue.jint 2, JsonValue.jstr "mary", JsonValue.jstr "d0"],
         [JsonValue.jint 1, JsonValue.jstr "john", JsonValue.jstr "2021-01-01 00:00:00"]] 1
      = (.ok [("status", .jstr "ok"), ("user_id", .jint 1),
              ("user_name", .jstr "john"),
              ("creation_date", .jstr "2021-01-01 00:00:00")] 200,
         [[JsonValue.jint 2, JsonValue.jstr "mary", JsonValue.jstr "d0"],
          [JsonValue.jint 1, JsonValue.jstr "john", JsonValue.jstr "2021-01-01 00:00:00"]],
         [.selectOp none 1, .showColumnsOp]) :=
  add_then_get_roundtrip [[JsonValue.jint 2, JsonValue.jstr "mary", JsonValue.jstr "d0"]] 1
    ⟨1, "john", "2021-01-01 00:00:00"⟩ (by decide) (by decide) (by decide) (by decide)

/-! ## C5: update followed by get -/

/-- Counterexample to C5 as stated: `update_user_data` SETs the `user_id`
column from the payload as well. Updating the row with stored id `3`
using the valid payload `{user_id: 7, user_name: "george", ...}` succeeds,
but afterwards the stored `user_id` of that row is `7`, not `3`, and
`get_user_from_database` on id `3` answers `abort(500, "no such id")`. -/
theorem update_changes_stored_id_cex :
    (update_user_data [[JsonValue.jint 3, JsonValue.jstr "john", JsonValue.jstr "d"]] 3
        ⟨7, "george", "d2"⟩).1
        = .ok [("status", .jstr "ok"), ("user_updated", .jint 7)] 200
    ∧ (update_user_data [[JsonValue.jint 3, JsonValue.jstr "john", JsonValue.jstr "d"]] 3
        ⟨7, "george", "d2"⟩).2.1
        = [[JsonValue.jint 7, JsonValue.jstr "george", JsonValue.jstr "d2"]]
    ∧ (get_user_from_database
        (update_user_data [[JsonValue.jint 3, JsonValue.jstr "john", JsonValue.jstr "d"]] 3
          ⟨7, "george", "d2"⟩).2.1 3).1
        = .err 500 NO_SUCH_ID := by
  refine ⟨?_, ?_, ?_⟩ <;> rfl

/-- C5 (amended): when the existing id has exactly one stored row and the
valid payload's `user_id` equals that id, `update_user_data` succeeds and
a subsequent `get_user_from_database` returns the new `user_name` and
`creation_date` from the payload, with the row's `user_id` still equal to
the id. -/
theorem update_then_get_roundtrip (tbl : Table) (uid : Int) (m : UsersDataModel)
    (hone : (tbl.filter (rowMatches uid)).length = 1)
    (hid : m.user_id = uid)
    (hname : m.user_name.length ≤ 50) (hdate : m.creation_date.length ≤ 50) :
    update_user_data tbl uid m
        = (.ok [("status", .jstr "ok"), ("user_updated", .jint m.user_id)] 200,
           usersUpdate tbl uid m,
           [.selectOp (some ["user_name"]) uid, .updateOp uid m])
    ∧ get_user_from_database (usersUpdate tbl uid m) uid
        = (.ok [("status", .jstr "ok"), ("user_id", .jint uid),
                ("user_name", .jstr m.user_name),
                ("creation_date", .jstr m.creation_date)] 200,
           usersUpdate tbl uid m, [.selectOp none uid, .showColumnsOp]) := by
  obtain ⟨r, hr⟩ := List.length_eq_one.mp hone
  constructor
  · simp [update_user_data, usersSelect, hr]
  · have hfil : (usersUpdate tbl uid m).filter (rowMatches uid) = [rowOfModel m] := by
      rw [filter_usersUpdate tbl hid, hone]
      rfl
    rw [get_user_of_filter_single hfil hname hdate]
    simp [model_dump, hid]

/-- Witness for C5 (amended) at a concrete table, id and payload. -/
theorem update_then_get_roundtrip_witness :
    update_user_data [[JsonValue.jint 1, JsonValue.jstr "john", JsonValue.jstr "d"]] 1
        ⟨1, "george", "d2"⟩
      = (.ok [("status", .jstr "ok"), ("user_updated", .jint 1)] 200,
         [[JsonValue.jint 1, JsonValue.jstr "george", JsonValue.jstr "d2"]],
         [.selectOp (some ["user_name"]) 1, .updateOp 1 ⟨1, "george", "d2"⟩])
    ∧ get_user_from_database [[JsonValue.jint 1, JsonValue.jstr "george", JsonValue.jstr "d2"]] 1
      = (.ok [("status", .jstr "ok"), ("user_id", .jint 1),
              ("user_name", .jstr "george"), ("creation_date", .jstr "d2")] 200,
         [[JsonValue.jint 1, JsonValue.jstr "george", JsonValue.jstr "d2"]],
         [.selectOp none 1, .showColumnsOp]) :=
  update_then_get_roundtrip [[JsonValue.jint 1, JsonValue.jstr "john", JsonValue.jstr "d"]] 1
    ⟨1, "george", "d2"⟩ (by decide) (by decide) (by decide) (by decide)

/-! ## C4: what the success payload of add carries -/

/-- C4 (code evaluated at the failing input): for the valid payload
`{user_id: 1, user_name: "john", creation_date: "2021-01-01 00:00:00"}`
on an unused id, the success outcome of `add_user_data` binds the key
`user_added` to the submitted `user_id` (`1`), not to the submitted
`user_name` (`"john"`) as the repository's own REST-API docstring
(`{"status":"ok","user_added":<USER_NAME>}`) specifies. -/
theorem add_user_success_payload_carries_id :
    (add_user_data [] 1 ⟨1, "john", "2021-01-01 00:00:00"⟩).1
        = .ok [("status", .jstr "ok"), ("user_added", .jint 1)] 200
    ∧ lookupField [("status", JsonValue.jstr "ok"), ("user_added", JsonValue.jint 1)]
        "user_added" = some (.jint 1)
    ∧ some (JsonValue.jint 1) ≠ some (JsonValue.jstr "john") := by
  refine ⟨rfl, rfl, by decide⟩

/-! ## C6: duplicate rows are fatal, an invalid row is a 422 -/

/-- C6: in `get_user_from_database`, (a) when more than one row matches
the id, the call raises `ValueError` (modelled `Outcome.fatal`) — a fault
distinct from the returned domain-error outcomes; (b) when exactly one
row matches but fails `UsersDataModel` validation, the call returns the
`abort(422, ...)` validation-error outcome instead of crashing. -/
theorem get_user_duplicate_fatal_invalid_422 (tbl : Table) (uid : Int) :
    (2 ≤ (tbl.filter (rowMatches uid)).length →
      get_user_from_database tbl uid
        = (.fatal ("More than one user with the same id: " ++ toString uid), tbl,
           [.selectOp none uid]))
    ∧ (∀ r e, tbl.filter (rowMatches uid) = [r] →
        model_validate (usersColumns.zip r) = .error e →
        get_user_from_database tbl uid
          = (.err 422 e, tbl, [.selectOp none uid, .showColumnsOp])) := by
  constructor
  · intro h2
    cases hfil : tbl.filter (rowMatches uid) with
    | nil => rw [hfil] at h2; simp at h2
    | cons a t =>
      cases t with
      | nil => rw [hfil] at h2; simp at h2
      | cons b t' => simp [get_user_from_database, usersSelect, hfil]
  · intro r e hfil he
    simp [get_user_from_database, usersSelect, hfil, he]

/-- Witness for C6: part (a) at id `1`, which two rows of the concrete
table match; part (b) at id `2`, matched by the single row whose
`user_name` cell is an integer and therefore fails validation. -/
theorem get_user_duplicate_fatal_invalid_422_witness :
    get_user_from_database
        [[JsonValue.jint 1, JsonValue.jstr "john", JsonValue.jstr "d"],
         [JsonValue.jint 1, JsonValue.jstr "mary", JsonValue.jstr "d"],
         [JsonValue.jint 2, JsonValue.jint 5, JsonValue.jstr "d"]] 1
      = (.fatal ("More than one user with the same id: " ++ toString (1 : Int)),
         [[JsonValue.jint 1, JsonValue.jstr "john", JsonValue.jstr "d"],
          [JsonValue.jint 1, JsonValue.jstr "mary", JsonValue.jstr "d"],
          [JsonValue.jint 2, JsonValue.jint 5, JsonValue.jstr "d"]],
         [.selectOp none 1])
    ∧ get_user_from_database
        [[JsonValue.jint 1, JsonValue.jstr "john", JsonValue.jstr "d"],
         [JsonValue.jint 1, JsonValue.jstr "mary", JsonValue.jstr "d"],
         [JsonValue.jint 2, JsonValue.jint 5, JsonValue.jstr "d"]] 2
      = (.err 422 "user_name: Input should be a valid string",
         [[JsonValue.jint 1, JsonValue.jstr "john", JsonValue.jstr "d"],
          [JsonValue.jint 1, JsonValue.jstr "mary", JsonValue.jstr "d"],
          [JsonValue.jint 2, JsonValue.jint 5, JsonValue.jstr "d"]],
         [.selectOp none 2, .showColumnsOp]) :=
  ⟨(get_user_duplicate_fatal_invalid_422
      [[JsonValue.jint 1, JsonValue.jstr "john", JsonValue.jstr "d"],
       [JsonValue.jint 1, JsonValue.jstr "mary", JsonValue.jstr "d"],
       [JsonValue.jint 2, JsonValue.jint 5, JsonValue.jstr "d"]] 1).1 (by decide),
   (get_user_duplicate_fatal_invalid_422
      [[JsonValue.jint 1, JsonValue.jstr "john", JsonValue.jstr "d"],
       [JsonValue.jint 1, JsonValue.jstr "mary", JsonValue.jstr "d"],
       [JsonValue.jint 2, JsonValue.jint 5, JsonValue.jstr "d"]] 2).2
      [JsonValue.jint 2, JsonValue.jint 5, JsonValue.jstr "d"]
      "user_name: Input should be a valid string" (by decide) rfl⟩

/-! ## C7: an over-long user_name never reaches storage -/

/-- C7: a request body whose `user_name` value is a string longer than 50
characters is rejected by `UsersDataModel` validation, so the handler
answers `abort(422, ...)`, the table is unchanged, and the storage handle
is never invoked (empty storage trace). -/
theorem long_user_name_rejected_before_storage (tbl : Table) (uid : Int)
    (p : Payload) (s : String)
    (hs : lookupField p "user_name" = some (.jstr s)) (hlen : 50 < s.length) :
    ∃ e, model_validate p = .error e
      ∧ server_add_user tbl uid p = (.err 422 e, tbl, []) := by
  have hn : ¬ (s.length ≤ 50) := by omega
  have hval : ∃ e, model_validate p = .error e := by
    cases hu : lookupField p "user_id" with
    | none => exact ⟨"user_id: Field required", by simp [model_validate, hu]⟩
    | some v =>
      cases hc : coerceInt v with
      | none =>
        exact ⟨"user_id: Input should be a valid integer",
          by simp [model_validate, hu, hc]⟩
      | some uid' =>
        exact ⟨"user_name: String should have at most 50 characters",
          by simp [model_validate, hu, hc, hs, coerceStr, hn]⟩
  obtain ⟨e, he⟩ := hval
  exact ⟨e, he, by simp [server_add_user, he]⟩

/-- Witness for C7 at a concrete 51-character `user_name`. -/
theorem long_user_name_rejected_before_storage_witness :
    ∃ e, model_validate
        [("user_id", JsonValue.jint 1),
         ("user_name", JsonValue.jstr (String.mk (List.replicate 51 'a'))),
         ("creation_date", JsonValue.jstr "d")] = .error e
      ∧ server_add_user []  1
          [("user_id", JsonValue.jint 1),
           ("user_name", JsonValue.jstr (String.mk (List.replicate 51 'a'))),
           ("creation_date", JsonValue.jstr "d")] = (.err 422 e, [], []) :=
  long_user_name_rejected_before_storage [] 1
    [("user_id", JsonValue.jint 1),
     ("user_name", JsonValue.jstr (String.mk (List.replicate 51 'a'))),
     ("creation_date", JsonValue.jstr "d")]
    (String.mk (List.replicate 51 'a')) (by decide) (by decide)

/-! ## C10: user_id is a required payload field -/

/-- C10: `UsersDataModel` requires `user_id`; a request body holding no
`user_id` field fails validation, so both the add handler and the update
handler answer `abort(422, ...)` without taking the id from the URL path
and without touching storage. -/
theorem missing_user_id_rejected (tbl : Table) (uid : Int) (p : Payload)
    (h : lookupField p "user_id" = none) :
    model_validate p = .error "user_id: Field required"
    ∧ server_add_user tbl uid p
        = (.err 422 "user_id: Field required", tbl, [])
    ∧ server_update_user tbl uid p
        = (.err 422 "user_id: Field required", tbl, []) := by
  have hval : model_validate p = .error "user_id: Field required" := by
    unfold model_validate
    rw [h]
  exact ⟨hval, by simp [server_add_user, hval], by simp [server_update_user, hval]⟩

/-- Witness for C10 at a concrete body holding only `user_name` and
`creation_date`. -/
theorem missing_user_id_rejected_witness :
    model_validate [("user_name", JsonValue.jstr "john"), ("creation_date", JsonValue.jstr "d")]
        = .error "user_id: Field required"
    ∧ server_add_user [] 1
        [("user_name", JsonValue.jstr "john"), ("creation_date", JsonValue.jstr "d")]
        = (.err 422 "user_id: Field required", [], [])
    ∧ server_update_user [] 1
        [("user_name", JsonValue.jstr "john"), ("creation_date", JsonValue.jstr "d")]
        = (.err 422 "user_id: Field required", [], []) :=
  missing_user_id_rejected [] 1
    [("user_name", JsonValue.jstr "john"), ("creation_date", JsonValue.jstr "d")]
    (by decide)

/-! ## C8: the SELECT statement emitted by the query builder -/

/-- A string ending in a backtick is never a string ending in `" WHERE "`:
their final characters differ. -/
lemma backtick_append_ne_WHERE (x y : String) : x ++ "`" ≠ y ++ " WHERE " := by
  intro h
  have hd := congrArg String.data h
  rw [String.data_append, String.data_append] at hd
  have h1 : (x.data ++ "`".data).getLast? = some '`' := by
    rw [List.getLast?_append_of_ne_nil _ (by decide)]
    decide
  have h2 : (y.data ++ " WHERE ".data).getLast? = some ' ' := by
    rw [List.getLast?_append_of_ne_nil _ (by decide)]
    decide
  rw [hd] at h1
  exact absurd (h1.symm.trans h2) (by decide)

/-- C8: `ORM.select` emits `SELECT {columns} FROM {table}` with exactly
the given backtick-quoted columns, or `*` when the column list is
omitted; the emitted statement carries a ` WHERE {predicate}` suffix
exactly when the predicate is non-empty; and the fetched raw row sequence
is returned unchanged. -/
theorem orm_select_spec (cur : DBCursor) (t : String)
    (cols : Option (List String)) (w : String) :
    (∀ cs, cols = some cs →
      (ORM.select cur t cols w).1
        = "SELECT " ++ String.intercalate ", " (cs.map (fun c => "`" ++ c ++ "`"))
          ++ " FROM `" ++ t ++ "`" ++ (if w = "" then "" else " WHERE " ++ w))
    ∧ (cols = none →
      (ORM.select cur t cols w).1
        = "SELECT " ++ "*" ++ " FROM `" ++ t ++ "`"
          ++ (if w = "" then "" else " WHERE " ++ w))
    ∧ ((∃ pre, (ORM.select cur t cols w).1 = pre ++ (" WHERE " ++ w)) ↔ w ≠ "")
    ∧ (ORM.select cur t cols w).2 = cur.results ((ORM.select cur t cols w).1) := by
  refine ⟨?_, ?_, ⟨?_, ?_⟩, rfl⟩
  · intro cs hcs
    subst hcs
    by_cases hw : w = "" <;>
      simp [ORM.select, selectQueryText, selectColumnsText, hw, String.append_empty]
  · intro hcs
    subst hcs
    by_cases hw : w = "" <;>
      simp [ORM.select, selectQueryText, selectColumnsText, hw, String.append_empty]
  · rintro ⟨pre, hpre⟩ hw
    subst hw
    rw [String.append_empty] at hpre
    simp only [ORM.select, selectQueryText, if_pos rfl] at hpre
    exact backtick_append_ne_WHERE _ pre hpre
  · intro hw
    exact ⟨"SELECT " ++ selectColumnsText cols ++ " FROM `" ++ t ++ "`",
      by simp [ORM.select, selectQueryText, hw]⟩

/-- Witness for C8 at a concrete cursor, table, column list and
predicate. -/
theorem orm_select_spec_witness :
    (ORM.select ⟨fun _ => [[JsonValue.jint 1]]⟩ "users" (some ["user_id"]) "user_id = 1").1
        = "SELECT " ++ String.intercalate ", " (["user_id"].map (fun c => "`" ++ c ++ "`"))
          ++ " FROM `" ++ "users" ++ "`"
          ++ (if ("user_id = 1" : String) = "" then "" else " WHERE " ++ "user_id = 1")
    ∧ (∃ pre,
        (ORM.select ⟨fun _ => [[JsonValue.jint 1]]⟩ "users" (some ["user_id"]) "user_id = 1").1
          = pre ++ (" WHERE " ++ "user_id = 1"))
    ∧ (ORM.select ⟨fun _ => [[JsonValue.jint 1]]⟩ "users" (some ["user_id"]) "user_id = 1").2
        = DBCursor.results ⟨fun _ => [[JsonValue.jint 1]]⟩
            ((ORM.select ⟨fun _ => [[JsonValue.jint 1]]⟩ "users" (some ["user_id"]) "user_id = 1").1) := by
  have h := orm_select_spec ⟨fun _ => [[JsonValue.jint 1]]⟩ "users" (some ["user_id"]) "user_id = 1"
  exact ⟨h.1 ["user_id"] rfl, h.2.2.1.mpr (by decide), h.2.2.2⟩

/-! ## C9: provisioning is driven by the introspection outcome -/

/-- C9: `create_table` (with a known, well-formed schema for the table)
first introspects the table's columns; when introspection succeeds the
table already exists and no `CREATE TABLE` is executed (idempotence);
when introspection raises the `ProgrammingError` of a missing table, the
table is created; when introspection raises anything else, that failure
propagates to the caller. -/
theorem create_table_introspection_cases (table_name schema_name : String)
    (schemas : List (String × List (String × JsonValue)))
    (ts : List (String × JsonValue))
    (hlook : lookupField schemas table_name = some ts)
    (hall : ts.all (fun kv => isStrVal kv.2) = true)
    (hpk : lookupField ts "primary_key" ≠ none) :
    (∀ info, create_table (.ok info) table_name schema_name schemas = .done none)
    ∧ (∀ msg, ∃ stmt,
        create_table (.programmingError msg) table_name schema_name schemas
          = .done (some stmt))
    ∧ (∀ msg,
        create_table (.otherError msg) table_name schema_name schemas
          = .raised msg) := by
  refine ⟨?_, ?_, ?_⟩
  · intro info
    simp [create_table, hlook]
  · intro msg
    have hok : ∃ stmt, ORM.create_table schema_name table_name ts = .ok stmt := by
      unfold ORM.create_table
      rw [if_neg (not_not_intro hall)]
      cases hp : lookupField ts "primary_key" with
      | none => exact absurd hp hpk
      | some pk => exact ⟨_, rfl⟩
    obtain ⟨stmt, hstmt⟩ := hok
    exact ⟨stmt, by simp [create_table, hlook, hstmt]⟩
  · intro msg
    simp [create_table, hlook]

/-- The `users` table schema dictionary, as provisioning receives it. -/
def usersTableSchema : List (String × JsonValue) :=
  [("user_id", .jstr "INT NOT NULL"),
   ("user_name", .jstr "VARCHAR(50) NOT NULL"),
   ("creation_date", .jstr "VARCHAR(50) NOT NULL"),
   ("primary_key", .jstr "user_id")]

/-- Witness for C9 at the concrete `users` schema and each of the three
introspection outcomes. -/
theorem create_table_introspection_cases_witness :
    create_table (.ok []) "users" "mydb" [("users", usersTableSchema)] = .done none
    ∧ (∃ stmt,
        create_table (.programmingError "1146: table does not exist") "users" "mydb"
          [("users", usersTableSchema)] = .done (some stmt))
    ∧ create_table (.otherError "connection lost") "users" "mydb"
        [("users", usersTableSchema)] = .raised "connection lost" := by
  have h := create_table_introspection_cases "users" "mydb" [("users", usersTableSchema)]
    usersTableSchema rfl (by decide) (by decide)
  exact ⟨h.1 [], h.2.1 "1146: table does not exist", h.2.2 "connection lost"⟩
